import Mathlib

/-!
Verification of the Backup Container Codec of DroidForensics-Suite.

The development shallowly embeds, at byte level, the two near-duplicate
decrypt/extract routines of the repository:

* `_decrypt_backup_data` from `src/mcp_servers/data_acquisition.py`
  (lines 463-509), here `_decrypt_backup_data`;
* `decrypt_backup` from `src/main.py` (lines 516-563), here `decrypt_backup`;
* `extract_backup_to_tar` from `src/mcp_servers/data_acquisition.py`
  (lines 387-461), here `extract_backup_to_tar_da`;
* `extract_backup_to_tar` from `src/main.py` (lines 426-513), here
  `extract_backup_to_tar_main`.

Bytes are `Nat` values and byte strings are `List Nat`.  The cryptographic
primitives the source obtains from the `cryptography` package (PBKDF2-HMAC-SHA1
key derivation and the AES block cipher) are parameters of the embedding
(`CryptoPrims`), since every claim under scrutiny concerns the byte plumbing
around them, never the cipher mathematics.  The input-validation behaviour of
that library, which the control flow of the source depends on, is modelled
explicitly:

* `algorithms.AES(key)` raises `ValueError` unless the key is 16, 24 or
  32 bytes long;
* `modes.CBC(iv)` raises `ValueError` unless the IV is 16 bytes long;
* `decryptor.update(..) + decryptor.finalize()` raises `ValueError` unless the
  ciphertext length is a multiple of the 16-byte block size;
* `struct.unpack(">I", s)` raises `struct.error` unless `s` has exactly
  4 bytes;
* `zlib` compression and decompression are parameters (`ZlibPrims`), with
  decompression fallible.

Python exceptions are modelled by `Except PyExc`; Python sequence slicing
`s[a:b]`, `s[a:]`, `s[:-n]` and `s[-1]` is translated with its exact Python
semantics (clamping slices, `s[:-0] = []`, `IndexError` on empty).  File I/O
is modelled by passing the input file's bytes in and returning the bytes
written to the output sink (`ExtractResult.output`, `none` when the sink was
never written).
-/

/-- A byte (value range 0..255 in all runs of the source program). -/
abbrev Byte := Nat

/-- A byte string, as Python `bytes`. -/
abbrev Bytes := List Nat

/-- The Python exceptions that the embedded code paths can raise. -/
inductive PyExc where
  /-- `ValueError` from the `cryptography` package's input validation. -/
  | valueError
  /-- `struct.error` from `struct.unpack`. -/
  | structError
  /-- `IndexError` from indexing an empty `bytes`. -/
  | indexError
  /-- `UnicodeDecodeError` from strict `bytes.decode()`. -/
  | unicodeError
  /-- `zlib.error` from `zlib.decompress`. -/
  | zlibError
deriving DecidableEq, Repr

/-- The cryptographic primitives imported by the source from the
`cryptography` package, abstracted as functions: `pbkdf2Sha1 password salt
iterations length` is the PBKDF2-HMAC-SHA1 derived key, and
`aesDecBlock key block` is the raw AES block-decryption of one 16-byte
block. -/
structure CryptoPrims where
  pbkdf2Sha1 : Bytes → Bytes → Nat → Nat → Bytes
  aesDecBlock : Bytes → Bytes → Bytes

/-- The zlib primitives imported by the source: `compress` and the fallible
`decompress`. -/
structure ZlibPrims where
  compress : Bytes → Bytes
  decompress : Bytes → Except PyExc Bytes

/-- Big-endian unsigned integer value of a byte string; on a 4-byte string
this is Python's `struct.unpack(">I", s)[0]`. -/
def beU32 (bs : Bytes) : Nat :=
  bs.foldl (fun a b => a * 256 + b) 0

/-- Pointwise xor of two byte strings, truncated to the shorter one. -/
def xorBytes (a b : Bytes) : Bytes :=
  List.zipWith Nat.xor a b

/-- Split a byte string into consecutive 16-byte cipher blocks (the last
block is shorter when the length is not a multiple of 16).  The first
argument is recursion fuel; every step consumes at least one byte, so any
fuel at least the list length yields the fixpoint. -/
def toBlocksAux : Nat → Bytes → List Bytes
  | 0, _ => []
  | _ + 1, [] => []
  | fuel + 1, b :: bs => ((b :: bs).take 16) :: toBlocksAux fuel ((b :: bs).drop 16)

/-- Split a byte string into consecutive 16-byte cipher blocks. -/
def toBlocks (bs : Bytes) : List Bytes :=
  toBlocksAux bs.length bs

/-- CBC-mode chaining for decryption: each plaintext block is the raw block
decryption xored with the previous ciphertext block (initially the IV). -/
def cbcChain (P : CryptoPrims) (key : Bytes) (prev : Bytes) : List Bytes → Bytes
  | [] => []
  | b :: bs => xorBytes (P.aesDecBlock key b) prev ++ cbcChain P key b bs

/-- The source's AES-CBC decryption call sequence
`Cipher(algorithms.AES(key), modes.CBC(iv))` followed by
`decryptor.update(ct) + decryptor.finalize()`, including the `cryptography`
package's input validation (each failure is a `ValueError`). -/
def aesCbcDecrypt (P : CryptoPrims) (key iv ct : Bytes) : Except PyExc Bytes :=
  if ¬ (key.length = 16 ∨ key.length = 24 ∨ key.length = 32) then .error .valueError
  else if iv.length ≠ 16 then .error .valueError
  else if ct.length % 16 ≠ 0 then .error .valueError
  else .ok (cbcChain P key iv (toBlocks ct))

/-- `_decrypt_backup_data(data, password)` of
`src/mcp_servers/data_acquisition.py` lines 463-509, transcribed
line by line.  Python slices translate as: `data[:64]` is `take 64`,
`data[64:128]` is `(drop 64).take 64`, `data[128:132]` is
`(drop 128).take 4`, `data[132:148]` is `(drop 132).take 16`,
`data[148:246]` is `(drop 148).take 98`, `data[246:]` is `drop 246`,
`master_key[:-p]` is empty for `p = 0` and `take (length - p)` otherwise,
and `master_key[-1]` raises `IndexError` on an empty string. -/
def _decrypt_backup_data (P : CryptoPrims) (data password : Bytes) :
    Except PyExc Bytes :=
  let user_salt := data.take 64
  let _checksum_salt := (data.drop 64).take 64
  if ((data.drop 128).take 4).length = 4 then
    let rounds := beU32 ((data.drop 128).take 4)
    let user_iv := (data.drop 132).take 16
    let master_key_blob := (data.drop 148).take 98
    let user_key := P.pbkdf2Sha1 password user_salt rounds 32
    match aesCbcDecrypt P user_key user_iv master_key_blob with
    | .error e => .error e
    | .ok master_key₀ =>
      match master_key₀.getLast? with
      | none => .error .indexError
      | some padding_length =>
        let master_key :=
          if padding_length = 0 then []
          else master_key₀.take (master_key₀.length - padding_length)
        let key := master_key.take 32
        let iv := (master_key.drop 32).take 16
        let encrypted_data := data.drop 246
        aesCbcDecrypt P key iv encrypted_data
  else .error .structError

/-- `decrypt_backup(data, password, encryption)` of `src/main.py` lines
516-563, transcribed line by line.  It performs the same slicing, key
derivation and decryption as `_decrypt_backup_data` (the only textual
differences are the order of the `iv`/`key` assignments and the extra
`encryption` parameter, which the body never reads). -/
def decrypt_backup (P : CryptoPrims) (data password : Bytes)
    (_encryption : Bytes) : Except PyExc Bytes :=
  let user_salt := data.take 64
  let _checksum_salt := (data.drop 64).take 64
  if ((data.drop 128).take 4).length = 4 then
    let rounds := beU32 ((data.drop 128).take 4)
    let user_iv := (data.drop 132).take 16
    let master_key_blob := (data.drop 148).take 98
    let user_key := P.pbkdf2Sha1 password user_salt rounds 32
    match aesCbcDecrypt P user_key user_iv master_key_blob with
    | .error e => .error e
    | .ok master_key₀ =>
      match master_key₀.getLast? with
      | none => .error .indexError
      | some padding_length =>
        let master_key :=
          if padding_length = 0 then []
          else master_key₀.take (master_key₀.length - padding_length)
        let iv := (master_key.drop 32).take 16
        let key := master_key.take 32
        let encrypted_data := data.drop 246
        aesCbcDecrypt P key iv encrypted_data
  else .error .structError

/-- Python `f.readline()` on a byte string: the first line including its
terminating newline (byte 10), paired with the remaining bytes. -/
def readLine : Bytes → Bytes × Bytes
  | [] => ([], [])
  | b :: bs =>
    if b = 10 then ([10], bs)
    else (b :: (readLine bs).1, (readLine bs).2)

/-- `pre` is a prefix of `bs` — Python `bytes.startswith`. -/
def bytesStartWith : Bytes → Bytes → Bool
  | [], _ => true
  | _ :: _, [] => false
  | p :: ps, b :: bs => if p = b then bytesStartWith ps bs else false

/-- The bytes (in the ASCII range) that Python `str.strip()` removes:
tab, newline, vertical tab, form feed, carriage return, space and the
file/group/record/unit separators 0x1C-0x1F. -/
def isPySpace (b : Nat) : Bool :=
  b = 9 ∨ b = 10 ∨ b = 11 ∨ b = 12 ∨ b = 13 ∨ b = 32 ∨ (28 ≤ b ∧ b ≤ 31)

/-- Python `str.strip()` modelled on the UTF-8 bytes of the string
(whitespace handled in the ASCII range, which covers every input the
source compares against). -/
def stripBytes (bs : Bytes) : Bytes :=
  ((bs.dropWhile isPySpace).reverse.dropWhile isPySpace).reverse

/-- A UTF-8 continuation byte. -/
def utf8Cont (b : Nat) : Bool := 128 ≤ b ∧ b ≤ 191

/-- Python `bytes.decode("utf-8", errors="ignore")`, modelled on the raw
bytes: every byte that starts a valid UTF-8 sequence is kept together with
its continuation bytes (a kept character re-encodes to exactly those bytes),
and every byte that does not is dropped.  The case split follows the UTF-8
validity table, including the exclusion of overlong encodings, surrogates
and code points above U+10FFFF. -/
def utf8DecodeIgnoreAux : Nat → Bytes → Bytes
  | 0, _ => []
  | _ + 1, [] => []
  | fuel + 1, b :: bs =>
    if b ≤ 127 then b :: utf8DecodeIgnoreAux fuel bs
    else if 194 ≤ b ∧ b ≤ 223 then
      match bs with
      | c :: bs2 =>
        if utf8Cont c then b :: c :: utf8DecodeIgnoreAux fuel bs2
        else utf8DecodeIgnoreAux fuel (c :: bs2)
      | [] => []
    else if 224 ≤ b ∧ b ≤ 239 then
      match bs with
      | c :: d :: bs2 =>
        if (if b = 224 then 160 ≤ c ∧ c ≤ 191
            else if b = 237 then 128 ≤ c ∧ c ≤ 159
            else utf8Cont c) ∧ utf8Cont d then
          b :: c :: d :: utf8DecodeIgnoreAux fuel bs2
        else utf8DecodeIgnoreAux fuel (c :: d :: bs2)
      | [c] => utf8DecodeIgnoreAux fuel [c]
      | [] => []
    else if 240 ≤ b ∧ b ≤ 244 then
      match bs with
      | c :: d :: e :: bs2 =>
        if (if b = 240 then 144 ≤ c ∧ c ≤ 191
            else if b = 244 then 128 ≤ c ∧ c ≤ 143
            else utf8Cont c) ∧ utf8Cont d ∧ utf8Cont e then
          b :: c :: d :: e :: utf8DecodeIgnoreAux fuel bs2
        else utf8DecodeIgnoreAux fuel (c :: d :: e :: bs2)
      | [c, d] => utf8DecodeIgnoreAux fuel [c, d]
      | [c] => utf8DecodeIgnoreAux fuel [c]
      | [] => []
    else utf8DecodeIgnoreAux fuel bs

/-- Python `bytes.decode("utf-8", errors="ignore")` modelled on the raw
bytes, via `utf8DecodeIgnoreAux` with the list length as fuel (every
recursive step consumes at least one byte, so this reaches the
fixpoint). -/
def utf8DecodeIgnore (bs : Bytes) : Bytes :=
  utf8DecodeIgnoreAux bs.length bs

/-- Strict `bytes.decode("utf-8")` succeeds exactly when the byte string is
valid UTF-8, i.e. when the ignoring decoder drops nothing. -/
def utf8Valid (bs : Bytes) : Bool :=
  utf8DecodeIgnore bs = bs

/-- The ASCII bytes of the magic string `ANDROID BACKUP`. -/
def magicBytes : Bytes := [65, 78, 68, 82, 79, 73, 68, 32, 66, 65, 67, 75, 85, 80]

/-- The ASCII bytes of the encryption sentinel `none`. -/
def noneBytes : Bytes := [110, 111, 110, 101]

/-- The ASCII bytes of the compression flag `1`. -/
def oneBytes : Bytes := [49]

/-- The distinguishable error outcomes of the two `extract_backup_to_tar`
routines (each is a distinct `{"success": False, ...}` dictionary in the
source; `extractionFailed` is the generic outer `except Exception` handler,
`decryptionFailed`/`decompressionFailed` are the two dedicated handlers that
only `src/main.py` has). -/
inductive ExtractError where
  | invalidFormat
  | encryptedNoPassword
  | decryptionFailed (e : PyExc)
  | decompressionFailed (e : PyExc)
  | extractionFailed (e : PyExc)
deriving DecidableEq, Repr

/-- The observable outcome of one `extract_backup_to_tar` call: the
`success` flag and error kind of the returned dictionary, the
`was_encrypted`/`was_compressed` flags it reports (present only on success),
and the bytes written to the output tar sink (`none` when the output file
was never opened or written). -/
structure ExtractResult where
  success : Bool
  error : Option ExtractError
  was_encrypted : Option Bool
  was_compressed : Option Bool
  output : Option Bytes
deriving DecidableEq, Repr

/-- An error return: `success = False`, nothing written to the sink. -/
def mkErr (e : ExtractError) : ExtractResult :=
  { success := false, error := some e, was_encrypted := none,
    was_compressed := none, output := none }

/-- A success return: the decoded bytes have been written to the sink and
the header flags are reported back. -/
def mkOk (enc comp : Bool) (out : Bytes) : ExtractResult :=
  { success := true, error := none, was_encrypted := some enc,
    was_compressed := some comp, output := some out }

/-- Python falsiness of the `password: Optional[str]` argument:
`not password` holds for `None` and for the empty string. -/
def pwEmpty : Option Bytes → Bool
  | none => true
  | some [] => true
  | some (_ :: _) => false

/-- The four `readline()` calls of the data-acquisition extractor: header
line, version line, compression line, encryption line, and the remaining
bytes that the subsequent `f.read()` returns. -/
def daLines (data : Bytes) : Bytes × Bytes × Bytes × Bytes × Bytes :=
  let p1 := readLine data
  let p2 := readLine p1.2
  let p3 := readLine p2.2
  let p4 := readLine p3.2
  (p1.1, p2.1, p3.1, p4.1, p4.2)

/-- The decompress-then-write tail of the data-acquisition extractor: both a
decryption failure and a decompression failure are caught by the single
outer `except Exception` handler. -/
def daFinish (Z : ZlibPrims) (is_encrypted is_compressed : Bool)
    (d : Bytes) : ExtractResult :=
  if is_compressed then
    match Z.decompress d with
    | .error e => mkErr (.extractionFailed e)
    | .ok d2 => mkOk is_encrypted is_compressed d2
  else mkOk is_encrypted is_compressed d

/-- `extract_backup_to_tar(backup_file, output_tar, password=None)` of
`src/mcp_servers/data_acquisition.py` lines 387-461, transcribed with the
input file contents as `data`.  The path handling before the `try` block
(existence check, `.tar` suffix, `mkdir`) does not touch the output file and
is elided.  The four header fields are read with `readline()`; the version,
compression and encryption lines are strictly `decode()`d (an invalid line
raises `UnicodeDecodeError`, caught by the outer handler) and `strip()`ped;
any decryption or decompression exception is caught by the same outer
handler; the output file is opened and written only after both stages
succeed. -/
def extract_backup_to_tar_da (P : CryptoPrims) (Z : ZlibPrims)
    (data : Bytes) (password : Option Bytes) : ExtractResult :=
  match daLines data with
  | (header_line, vline, cline, eline, body) =>
    if ¬ bytesStartWith magicBytes header_line then mkErr .invalidFormat
    else if ¬ utf8Valid vline then mkErr (.extractionFailed .unicodeError)
    else if ¬ utf8Valid cline then mkErr (.extractionFailed .unicodeError)
    else if ¬ utf8Valid eline then mkErr (.extractionFailed .unicodeError)
    else
      let compressed := stripBytes cline
      let encryption := stripBytes eline
      let is_encrypted : Bool := if encryption = noneBytes then false else true
      let is_compressed : Bool := if compressed = oneBytes then true else false
      if is_encrypted && pwEmpty password then mkErr .encryptedNoPassword
      else if is_encrypted then
        match _decrypt_backup_data P body (password.getD []) with
        | .error e => mkErr (.extractionFailed e)
        | .ok d => daFinish Z is_encrypted is_compressed d
      else daFinish Z is_encrypted is_compressed body

/-- The header fields of the `src/main.py` extractor: it reads a fixed
24-byte block, decodes it with `errors="ignore"` and splits on `"\n"`,
defaulting missing fields (`lines[i] if len(lines) > i else default`). -/
def mainLines (data : Bytes) : List Bytes :=
  (utf8DecodeIgnore (data.take 24)).splitOn 10

/-- The compression field of the `src/main.py` extractor (no `strip()`). -/
def mainCompressed (data : Bytes) : Bytes :=
  (mainLines data).getD 2 oneBytes

/-- The encryption field of the `src/main.py` extractor (no `strip()`). -/
def mainEncryption (data : Bytes) : Bytes :=
  (mainLines data).getD 3 noneBytes

/-- The decompress-then-write tail of the `src/main.py` extractor: a
decompression failure has its own handler and error dictionary. -/
def mainFinish (Z : ZlibPrims) (is_encrypted is_compressed : Bool)
    (d : Bytes) : ExtractResult :=
  if is_compressed then
    match Z.decompress d with
    | .error e => mkErr (.decompressionFailed e)
    | .ok d2 => mkOk is_encrypted is_compressed d2
  else mkOk is_encrypted is_compressed d

/-- `extract_backup_to_tar(backup_file, output_tar, password=None)` of
`src/main.py` lines 426-513, transcribed with the input file contents as
`data`.  It validates the magic on the raw 24-byte block, parses the fields
from the ignore-decoded block, wraps the decryption call in its own handler
(`"Decryption failed"`), wraps decompression in another
(`"Decompression failed"`), and writes the output file only after both
stages succeed. -/
def extract_backup_to_tar_main (P : CryptoPrims) (Z : ZlibPrims)
    (data : Bytes) (password : Option Bytes) : ExtractResult :=
  if ¬ bytesStartWith magicBytes (data.take 24) then mkErr .invalidFormat
  else
    let compressed := mainCompressed data
    let encryption := mainEncryption data
    let is_encrypted : Bool := if encryption = noneBytes then false else true
    let is_compressed : Bool := if compressed = oneBytes then true else false
    if is_encrypted && pwEmpty password then mkErr .encryptedNoPassword
    else
      let body := data.drop 24
      if is_encrypted then
        match decrypt_backup P body (password.getD []) encryption with
        | .error e => mkErr (.decryptionFailed e)
        | .ok d => mainFinish Z is_encrypted is_compressed d
      else mainFinish Z is_encrypted is_compressed body

/-! ## Specification-side definitions

These definitions follow the wording of the specification (§3 `KeyMaterial`,
§4.2 `KeyUnwrapper`, §4.3 `PayloadStream`, §6 container layout table); the
claim theorems compare the code transcriptions above against them. -/

/-- §3/§6: the key-material region, read field after field with the sizes of
the layout table (64-byte `user_salt`, 64-byte `checksum_salt`, 4-byte
big-endian `rounds`, 16-byte `user_iv`, 98-byte `master_key_blob`). -/
structure KeyMaterial where
  user_salt : Bytes
  checksum_salt : Bytes
  rounds : Nat
  user_iv : Bytes
  master_key_blob : Bytes
deriving DecidableEq, Repr

/-- The key-material region of a container body, at the cumulative offsets
of the layout table in §6. -/
def KeyMaterial.ofData (data : Bytes) : KeyMaterial :=
  { user_salt := data.take 64
  , checksum_salt := (data.drop 64).take 64
  , rounds := beU32 ((data.drop (64 + 64)).take 4)
  , user_iv := (data.drop (64 + 64 + 4)).take 16
  , master_key_blob := (data.drop (64 + 64 + 4 + 16)).take 98 }

/-- §4.2: "Derives a 32-byte user key: PBKDF2 with HMAC-SHA1, using
`password`, `material.user_salt`, and `material.rounds` iterations." -/
def deriveUserKey (P : CryptoPrims) (password : Bytes) (m : KeyMaterial) :
    Bytes :=
  P.pbkdf2Sha1 password m.user_salt m.rounds 32

/-- §4.2: "Decrypts `material.master_key_blob` with AES-256-CBC using the
derived user key and `material.user_iv`." -/
def decryptMasterBlob (P : CryptoPrims) (password : Bytes)
    (m : KeyMaterial) : Except PyExc Bytes :=
  aesCbcDecrypt P (deriveUserKey P password m) m.user_iv m.master_key_blob

/-- The padding removal that the code actually performs (Python
`master_key[-1]` / `master_key[:-padding_length]`): the last byte is taken
as the padding length and that many bytes are stripped, with no validation
of any kind; the only possible failure is `IndexError` on an empty
string. -/
def pyUnpad (mk : Bytes) : Except PyExc Bytes :=
  match mk.getLast? with
  | none => .error .indexError
  | some p => .ok (if p = 0 then [] else mk.take (mk.length - p))

/-- The key-unwrap phase of the code: the `struct.unpack` length gate, the
master-blob decryption of §4.2, then the code's unvalidated padding
strip. -/
def unwrapPhase (P : CryptoPrims) (data password : Bytes) :
    Except PyExc Bytes :=
  if ((data.drop 128).take 4).length = 4 then
    (decryptMasterBlob P password (KeyMaterial.ofData data)).bind pyUnpad
  else .error .structError

/-- §4.2: "Splits the unpadded master key material into `key = bytes[0..32]`
and `iv = bytes[32..48]`". -/
def splitUnwrapped (mk : Bytes) : Bytes × Bytes :=
  (mk.take 32, (mk.drop 32).take 16)

/-- §4.2's padding rule: the last byte gives the padding length; it must be
in `[1,16]` and all padding bytes must equal that length value. -/
def pkcs7Valid (b : Bytes) : Bool :=
  match b.getLast? with
  | none => false
  | some p =>
      1 ≤ p ∧ p ≤ 16 ∧ p ≤ b.length ∧ (b.drop (b.length - p)).all (· = p)

/-- The specification's error taxonomy (§7), restricted to the variants the
claims mention. -/
inductive CryptoErrorSpec where
  | badPassword
  | truncated
deriving DecidableEq, Repr

/-- §4.3: the final-chunk padding strip the specification requires of the
payload stream — §4.2's rule, with a malformed final block yielding
`CryptoError::Truncated`. -/
def stripPayloadPad (b : Bytes) : Except CryptoErrorSpec Bytes :=
  if pkcs7Valid b then .ok (b.take (b.length - b.getLastD 0))
  else .error .truncated

/-! ## Concrete instances and fixtures

A concrete `CryptoPrims`/`ZlibPrims` instance and concrete container bodies,
used by the witness and counterexample theorems.  `cPrims.aesDecBlock`
ignores its input and returns the zero block, so the CBC chaining makes
plaintext block `i` equal ciphertext block `i - 1` (block 1 equals the IV);
this lets the fixtures place chosen bytes in the decrypted master key. -/

/-- A concrete primitive instance for evaluating the embedding. -/
def cPrims : CryptoPrims :=
  { pbkdf2Sha1 := fun _ _ _ len => List.replicate len 0
  , aesDecBlock := fun _ _ => List.replicate 16 0 }

/-- A concrete zlib instance: identity compression, always-succeeding
decompression. -/
def cZlib : ZlibPrims :=
  { compress := fun b => b, decompress := fun b => .ok b }

/-- A container body (the bytes following the four header lines) whose
key-material region carries zero salts, `rounds = 1`, a zero IV and a
64-byte master-key blob whose decryption under `cPrims` ends in the two
bytes `t0 t1`; nothing follows the blob, so the payload region `data[246:]`
is empty. -/
def bodyWithTail (t0 t1 : Nat) : Bytes :=
  List.replicate 128 0 ++ [0, 0, 0, 1] ++ List.replicate 16 0 ++
    (List.replicate 32 0 ++ (List.replicate 14 0 ++ [t0, t1]) ++
      List.replicate 16 0)

/-- Body whose decrypted 64-byte master key ends in `[5, 2]`: the declared
padding length is 2 but the padding bytes are `[5, 2]`, violating §4.2's
rule. -/
def bodyBadPad : Bytes := bodyWithTail 5 2

/-- Body whose decrypted 64-byte master key ends in `[2, 2]`: a well-formed
PKCS7 pad of length 2, leaving a 62-byte master key. -/
def bodyGoodPad : Bytes := bodyWithTail 2 2

/-- Body with a 48-byte master-key blob whose decryption under `cPrims` ends
in byte `1`: stripping the 1-byte pad leaves a 47-byte master key. -/
def bodyShortKey : Bytes :=
  List.replicate 128 0 ++ [0, 0, 0, 1] ++ List.replicate 16 0 ++
    (List.replicate 16 0 ++ (List.replicate 15 0 ++ [1]) ++
      List.replicate 16 0)

/-- The unencrypted, compressed header of the spec's concrete scenario 1:
`b"ANDROID BACKUP\n1\n1\nnone\n"` (exactly 24 bytes). -/
def hdrNone : Bytes :=
  [65, 78, 68, 82, 79, 73, 68, 32, 66, 65, 67, 75, 85, 80, 10,
   49, 10, 49, 10, 110, 111, 110, 101, 10]

/-- An encrypted, uncompressed header: `b"ANDROID BACKUP\n1\n0\nAES-256\n"`. -/
def hdrAes : Bytes :=
  [65, 78, 68, 82, 79, 73, 68, 32, 66, 65, 67, 75, 85, 80, 10,
   49, 10, 48, 10, 65, 69, 83, 45, 50, 53, 54, 10]

/-- A container whose header names the unrecognized encryption scheme
`rot13`: `b"ANDROID BACKUP\n1\n0\nrot13\n"`. -/
def dataRot13 : Bytes :=
  [65, 78, 68, 82, 79, 73, 68, 32, 66, 65, 67, 75, 85, 80, 10,
   49, 10, 48, 10, 114, 111, 116, 49, 51, 10]

deriving instance DecidableEq for Except

set_option maxRecDepth 4000

/-! ## Decomposition lemmas -/

/-- The transcription of `_decrypt_backup_data` factors into the key-unwrap
phase (struct gate, §4.2 master-blob decryption, unvalidated pad strip)
followed by the payload decryption on the split key and IV. -/
theorem decrypt_backup_data_decomp (P : CryptoPrims) (data pw : Bytes) :
    _decrypt_backup_data P data pw =
      (unwrapPhase P data pw).bind (fun mk =>
        aesCbcDecrypt P (mk.take 32) ((mk.drop 32).take 16) (data.drop 246)) := by
  unfold _decrypt_backup_data unwrapPhase decryptMasterBlob deriveUserKey
    KeyMaterial.ofData pyUnpad
  by_cases h : ((data.drop 128).take 4).length = 4
  · norm_num [h]
    cases hA : aesCbcDecrypt P
        (P.pbkdf2Sha1 pw (data.take 64) (beU32 ((data.drop 128).take 4)) 32)
        ((data.drop 132).take 16) ((data.drop 148).take 98) with
    | error e => simp [Except.bind]
    | ok mk0 =>
      cases hL : mk0.getLast? with
      | none => simp [hL, Except.bind]
      | some p => simp [hL, Except.bind]
  · have h2 : ¬ 4 ≤ data.length - 128 := by
      simp only [List.length_take, List.length_drop] at h
      omega
    simp [h2, Except.bind]

/-! ## Claim C10 -/

/-- C10: the two near-duplicate decrypt routines are extensionally equal —
for every byte string `data` and password, `decrypt_backup(data, password,
encryption)` of `src/main.py` returns the same bytes, or fails with the same
exception, as `_decrypt_backup_data(data, password)` of
`src/mcp_servers/data_acquisition.py`, for every value of the `encryption`
argument, which `decrypt_backup` never reads. -/
theorem c10_decrypt_routines_extensionally_equal
    (P : CryptoPrims) (data password encryption : Bytes) :
    decrypt_backup P data password encryption =
      _decrypt_backup_data P data password := rfl

/-! ## Claim C1 -/

/-- The conclusion of claim C1 at given primitives, container bytes and
password: the key-material fields of the spec's layout are exactly the
documented slices of the data (`user_salt = data[0:64]`, big-endian `rounds`
at `data[128:132]`, `user_iv = data[132:148]`, `master_key_blob` the
98 bytes `data[148:246]`), the user key is the 32-byte PBKDF2-HMAC-SHA1
derivation from the password, `user_salt` and `rounds`, and
`_decrypt_backup_data` is the AES-CBC master-blob decryption with that key
and `user_iv` followed by the pad strip and payload decryption. -/
def C1Concl (P : CryptoPrims) (data pw : Bytes) : Prop :=
  (KeyMaterial.ofData data).user_salt = data.take 64 ∧
  (KeyMaterial.ofData data).rounds = beU32 ((data.drop 128).take 4) ∧
  (KeyMaterial.ofData data).user_iv = (data.drop 132).take 16 ∧
  (KeyMaterial.ofData data).master_key_blob = (data.drop 148).take 98 ∧
  (KeyMaterial.ofData data).master_key_blob.length = 98 ∧
  deriveUserKey P pw (KeyMaterial.ofData data) =
    P.pbkdf2Sha1 pw (data.take 64) (beU32 ((data.drop 128).take 4)) 32 ∧
  _decrypt_backup_data P data pw =
    ((decryptMasterBlob P pw (KeyMaterial.ofData data)).bind pyUnpad).bind
      (fun mk => aesCbcDecrypt P (mk.take 32) ((mk.drop 32).take 16)
        (data.drop 246))

/-- C1: for every encrypted container (body at least 246 bytes, so that the
whole key-material region is present), key unwrapping interprets the
key-material region at the documented offsets, derives a 32-byte user key by
PBKDF2 with HMAC-SHA1 from the supplied password, `user_salt` and `rounds`
iterations, and decrypts `master_key_blob` with AES-256-CBC using that
derived key and `user_iv`. -/
theorem c1_key_unwrap_layout_and_algorithm
    (P : CryptoPrims) (data pw : Bytes) (h : 246 ≤ data.length) :
    C1Concl P data pw := by
  have hgate : ((data.drop 128).take 4).length = 4 := by
    simp only [List.length_take, List.length_drop]
    omega
  refine ⟨rfl, rfl, rfl, rfl, ?_, rfl, ?_⟩
  · simp only [KeyMaterial.ofData, List.length_take, List.length_drop]
    omega
  · rw [decrypt_backup_data_decomp, unwrapPhase, if_pos hgate]

/-- Witness for C1 at a concrete 246-byte container body. -/
theorem c1_witness :
    246 ≤ (List.replicate 246 0 : Bytes).length ∧
      C1Concl cPrims (List.replicate 246 0) [] :=
  ⟨by simp only [List.length_replicate]; omega,
    c1_key_unwrap_layout_and_algorithm cPrims (List.replicate 246 0) []
      (by simp only [List.length_replicate]; omega)⟩

/-! ## Claim C2 -/

/-- C2 is refuted: the decrypted master-key blob `List.replicate 62 0 ++
[5, 2]` declares a padding length of 2 but its padding bytes are `[5, 2]`,
violating §4.2's rule — yet `_decrypt_backup_data` classifies nothing: it
strips two bytes anyway and returns `Except.ok`, not a bad-password
error. -/
theorem c2_counterexample :
    decryptMasterBlob cPrims [] (KeyMaterial.ofData bodyBadPad) =
        .ok (List.replicate 62 0 ++ [5, 2]) ∧
      pkcs7Valid (List.replicate 62 0 ++ [5, 2]) = false ∧
      _decrypt_backup_data cPrims bodyBadPad [] = .ok [] := by
  refine ⟨by decide, by decide, by decide⟩

/-- C2 amended: PKCS7 padding removal performs no validation at all — the
last byte of the decrypted blob is taken as the padding length and that many
bytes are stripped unconditionally, so a violation of the `[1,16]`/equal-
bytes rule is not classified as a bad-password error (no such classification
exists); the pipeline proceeds ignoring validity. -/
theorem c2_pad_strip_is_unvalidated
    (P : CryptoPrims) (data pw mkp : Bytes)
    (hgate : ((data.drop 128).take 4).length = 4)
    (hok : decryptMasterBlob P pw (KeyMaterial.ofData data) = .ok mkp)
    (hbad : pkcs7Valid mkp = false) :
    _decrypt_backup_data P data pw =
      (pyUnpad mkp).bind (fun mk =>
        aesCbcDecrypt P (mk.take 32) ((mk.drop 32).take 16)
          (data.drop 246)) := by
  rw [decrypt_backup_data_decomp, unwrapPhase, if_pos hgate, hok]
  rfl

/-- Witness for C2's amended statement at the invalid-padding fixture. -/
theorem c2_witness :
    ((bodyBadPad.drop 128).take 4).length = 4 ∧
      decryptMasterBlob cPrims [] (KeyMaterial.ofData bodyBadPad) =
        .ok (List.replicate 62 0 ++ [5, 2]) ∧
      pkcs7Valid (List.replicate 62 0 ++ [5, 2]) = false ∧
      _decrypt_backup_data cPrims bodyBadPad [] =
        (pyUnpad (List.replicate 62 0 ++ [5, 2])).bind (fun mk =>
          aesCbcDecrypt cPrims (mk.take 32) ((mk.drop 32).take 16)
            (bodyBadPad.drop 246)) :=
  ⟨by decide, by decide, by decide,
    c2_pad_strip_is_unvalidated cPrims bodyBadPad []
      (List.replicate 62 0 ++ [5, 2]) (by decide) (by decide) (by decide)⟩

/-! ## Claim C3 -/

/-- If the master-blob decryption succeeds, the blob was a nonzero multiple
of 16 bytes, hence at most 96 of the at-most-98 available bytes — so the
container is shorter than 246 bytes and the payload region `data[246:]` is
empty. -/
theorem payload_region_empty_of_unwrap_ok
    (P : CryptoPrims) (data pw mk : Bytes)
    (h : unwrapPhase P data pw = .ok mk) : data.drop 246 = [] := by
  unfold unwrapPhase at h
  by_cases hg : ((data.drop 128).take 4).length = 4
  · rw [if_pos hg] at h
    cases hA : decryptMasterBlob P pw (KeyMaterial.ofData data) with
    | error e => rw [hA] at h; simp [Except.bind] at h
    | ok mkp =>
      rw [hA] at h
      simp only [Except.bind] at h
      have hne : mkp ≠ [] := by
        intro hmk
        rw [hmk] at h
        simp [pyUnpad] at h
      unfold decryptMasterBlob aesCbcDecrypt at hA
      split_ifs at hA with h1 h2 h3 <;> simp at hA
      have hblob : (KeyMaterial.ofData data).master_key_blob ≠ [] := by
        intro hb
        rw [hb] at hA
        exact hne (by simpa [toBlocks, toBlocksAux, cbcChain] using hA)
      have hlen : (KeyMaterial.ofData data).master_key_blob.length % 16 = 0 := by
        omega
      have hlen2 : (KeyMaterial.ofData data).master_key_blob.length =
          min 98 (data.length - 148) := by
        simp [KeyMaterial.ofData, List.length_take, List.length_drop]
      have hpos : 0 < (KeyMaterial.ofData data).master_key_blob.length := by
        cases hb2 : (KeyMaterial.ofData data).master_key_blob with
        | nil => exact absurd hb2 hblob
        | cons x xs => simp [hb2]
      have : data.length ≤ 244 := by omega
      exact List.drop_eq_nil_of_le (by omega)
  · rw [if_neg hg] at h
    simp at h

/-- C3 is refuted: on the fixture `bodyGoodPad` the pipeline reaches the
payload stage and returns `Except.ok []` — the empty raw CBC output is
passed on as the decoded payload even though it carries no well-formed
final-block PKCS7 pad, where §4.3 demands stripping the final block's pad
and a `Truncated` error for a malformed final block. -/
theorem c3_counterexample :
    _decrypt_backup_data cPrims bodyGoodPad [] = .ok [] ∧
      stripPayloadPad [] = .error .truncated := by
  refine ⟨by decide, by decide⟩

/-- C3 amended: after AES-CBC decryption of the remaining container bytes
the result is passed on exactly as produced — no trailing PKCS7 pad is
stripped and no `Truncated` classification exists.  Moreover, on every
input on which the key-unwrap phase succeeds at all, the payload region
`data[246:]` is empty (a 98-byte blob is never a multiple of the block
size), so the payload stage only ever emits the raw CBC decryption of the
empty ciphertext. -/
theorem c3_payload_pad_never_stripped
    (P : CryptoPrims) (data pw mk : Bytes)
    (h : unwrapPhase P data pw = .ok mk) :
    data.drop 246 = [] ∧
      _decrypt_backup_data P data pw =
        aesCbcDecrypt P (mk.take 32) ((mk.drop 32).take 16) [] := by
  have hdrop := payload_region_empty_of_unwrap_ok P data pw mk h
  refine ⟨hdrop, ?_⟩
  rw [decrypt_backup_data_decomp, h, ← hdrop]
  rfl

/-- Witness for C3's amended statement at the well-formed-padding
fixture. -/
theorem c3_witness :
    unwrapPhase cPrims bodyGoodPad [] = .ok (List.replicate 62 0) ∧
      (bodyGoodPad.drop 246 = [] ∧
        _decrypt_backup_data cPrims bodyGoodPad [] =
          aesCbcDecrypt cPrims ((List.replicate 62 0).take 32)
            (((List.replicate 62 0).drop 32).take 16) []) :=
  ⟨by decide, c3_payload_pad_never_stripped cPrims bodyGoodPad []
    (List.replicate 62 0) (by decide)⟩

/-! ## Claim C6 -/

/-- C6 is partially refuted: on the fixture `bodyShortKey` the unpadded
master key has 47 bytes (shorter than the required 48), and decoding fails —
but with the `cryptography` package's generic `ValueError` (the same
exception class raised for any malformed key or IV size), not with a
distinct `Truncated` classification, which does not exist anywhere in the
code. -/
theorem c6_counterexample :
    unwrapPhase cPrims bodyShortKey [] = .ok (List.replicate 47 0) ∧
      (List.replicate 47 0 : Bytes).length = 47 ∧
      _decrypt_backup_data cPrims bodyShortKey [] = .error .valueError := by
  refine ⟨by decide, by decide, by decide⟩

/-- C6 amended: the unpadded master-key blob is split as
`key = bytes[0..32]` and `iv = bytes[32..48]` exactly as claimed, and for
every unpadded blob shorter than 48 bytes decoding does fail — but with the
generic `ValueError` that the `cryptography` package raises for an invalid
AES key or CBC IV length, surfaced by the callers as a generic
decryption/extraction failure rather than a distinct `Truncated` error. -/
theorem c6_short_master_key_fails_generically
    (P : CryptoPrims) (data pw mk : Bytes)
    (h : unwrapPhase P data pw = .ok mk) :
    _decrypt_backup_data P data pw =
        aesCbcDecrypt P (splitUnwrapped mk).1 (splitUnwrapped mk).2
          (data.drop 246) ∧
      (mk.length < 48 →
        _decrypt_backup_data P data pw = .error .valueError) := by
  have heq : _decrypt_backup_data P data pw =
      aesCbcDecrypt P (mk.take 32) ((mk.drop 32).take 16) (data.drop 246) := by
    rw [decrypt_backup_data_decomp, h]
    rfl
  refine ⟨heq, fun hlt => ?_⟩
  rw [heq]
  unfold aesCbcDecrypt
  have hkl : (mk.take 32).length = min 32 mk.length := List.length_take 32 mk
  have hil : ((mk.drop 32).take 16).length = min 16 (mk.length - 32) := by
    rw [List.length_take, List.length_drop]
  by_cases hkey : (mk.take 32).length = 16 ∨ (mk.take 32).length = 24 ∨
      (mk.take 32).length = 32
  · rw [if_neg (not_not_intro hkey),
      if_pos (show ((mk.drop 32).take 16).length ≠ 16 by omega)]
  · rw [if_pos hkey]

/-- Witness for C6's amended statement at the 47-byte master-key fixture. -/
theorem c6_witness :
    unwrapPhase cPrims bodyShortKey [] = .ok (List.replicate 47 0) ∧
      (_decrypt_backup_data cPrims bodyShortKey [] =
          aesCbcDecrypt cPrims (splitUnwrapped (List.replicate 47 0)).1
            (splitUnwrapped (List.replicate 47 0)).2 (bodyShortKey.drop 246) ∧
        ((List.replicate 47 0 : Bytes).length < 48 →
          _decrypt_backup_data cPrims bodyShortKey [] = .error .valueError)) :=
  ⟨by decide, c6_short_master_key_fails_generically cPrims bodyShortKey []
    (List.replicate 47 0) (by decide)⟩

/-! ## Claim C4 -/

/-- C4 is refuted: the container `dataRot13` names the unrecognized
encryption scheme `rot13`, yet with a password supplied the `src/main.py`
extractor does not reject it with an unsupported-encryption error — it
treats it as encrypted and hands the remaining bytes to `decrypt_backup`,
whose failure surfaces as the dedicated decryption-failure dictionary
(proof that the decryption path was entered). -/
theorem c4_counterexample :
    mainEncryption dataRot13 = [114, 111, 116, 49, 51] ∧
      mainEncryption dataRot13 ≠ noneBytes ∧
      extract_backup_to_tar_main cPrims cZlib dataRot13 (some [120]) =
        mkErr (.decryptionFailed .structError) := by
  refine ⟨by decide, by decide, by decide⟩

/-- C4 amended: an encryption name other than the `none` sentinel is never
rejected — there is no unsupported-encryption check anywhere.  Whenever the
magic matches, the header's encryption field differs from `none` and a
non-empty password is supplied, the `src/main.py` extractor treats the
container as encrypted and sends the payload bytes into `decrypt_backup`,
whose outcome alone determines the result. -/
theorem c4_unknown_encryption_sent_to_decrypt
    (P : CryptoPrims) (Z : ZlibPrims) (data pw : Bytes)
    (hmagic : bytesStartWith magicBytes (data.take 24) = true)
    (henc : mainEncryption data ≠ noneBytes)
    (hpw : pw ≠ []) :
    extract_backup_to_tar_main P Z data (some pw) =
      match decrypt_backup P (data.drop 24) pw (mainEncryption data) with
      | .error e => mkErr (.decryptionFailed e)
      | .ok d => mainFinish Z true
          (if mainCompressed data = oneBytes then true else false) d := by
  have hpe : pwEmpty (some pw) = false := by
    cases pw with
    | nil => exact absurd rfl hpw
    | cons a l => rfl
  unfold extract_backup_to_tar_main
  simp [hmagic, henc, hpe]

/-- Witness for C4's amended statement at the `rot13` fixture. -/
theorem c4_witness :
    bytesStartWith magicBytes (dataRot13.take 24) = true ∧
      mainEncryption dataRot13 ≠ noneBytes ∧ ([120] : Bytes) ≠ [] ∧
      extract_backup_to_tar_main cPrims cZlib dataRot13 (some [120]) =
        match decrypt_backup cPrims (dataRot13.drop 24) [120]
            (mainEncryption dataRot13) with
        | .error e => mkErr (.decryptionFailed e)
        | .ok d => mainFinish cZlib true
            (if mainCompressed dataRot13 = oneBytes then true else false) d :=
  ⟨by decide, by decide, by decide,
    c4_unknown_encryption_sent_to_decrypt cPrims cZlib dataRot13 [120]
      (by decide) (by decide) (by decide)⟩

/-! ## Claim C5 -/

/-- C5 is refuted: the encrypted, uncompressed container
`hdrAes ++ bodyGoodPad` is decoded by the data-acquisition extractor to a
silent success — `success = True` with decoded bytes written to the sink —
identically for the two distinct passwords `"a"` and `"b"`.  Since at most
one password can be the container's correct one, decoding with an incorrect
password here returns valid-looking output instead of a bad-password or
corrupt-payload error (no such classifications exist in the code). -/
theorem c5_counterexample :
    extract_backup_to_tar_da cPrims cZlib (hdrAes ++ bodyGoodPad)
        (some [97]) = mkOk true false [] ∧
      extract_backup_to_tar_da cPrims cZlib (hdrAes ++ bodyGoodPad)
        (some [98]) = mkOk true false [] ∧
      ([97] : Bytes) ≠ [98] := by
  refine ⟨by decide, by decide, by decide⟩

/-- C5 amended: for an encrypted container whose compression flag is not
`1`, nothing stands between decryption and the sink — whenever
`_decrypt_backup_data` returns bytes, the data-acquisition extractor
reports success and writes exactly those bytes, with no padding validation,
no bad-password classification and no decompression check, whatever the
password was. -/
theorem c5_decrypt_success_writes_sink_unconditionally
    (P : CryptoPrims) (Z : ZlibPrims) (data pw v : Bytes)
    (hl vl cl el body : Bytes)
    (hlines : daLines data = (hl, vl, cl, el, body))
    (hmagic : bytesStartWith magicBytes hl = true)
    (hv : utf8Valid vl = true) (hc : utf8Valid cl = true)
    (he : utf8Valid el = true)
    (henc : stripBytes el ≠ noneBytes)
    (hcomp : stripBytes cl ≠ oneBytes)
    (hpw : pw ≠ [])
    (hdec : _decrypt_backup_data P body pw = .ok v) :
    extract_backup_to_tar_da P Z data (some pw) = mkOk true false v := by
  have hpe : pwEmpty (some pw) = false := by
    cases pw with
    | nil => exact absurd rfl hpw
    | cons a l => rfl
  unfold extract_backup_to_tar_da
  rw [hlines]
  simp [hmagic, hv, hc, he, henc, hcomp, hpe, hdec, daFinish]

/-- Witness for C5's amended statement at the silent-success fixture. -/
theorem c5_witness :
    daLines (hdrAes ++ bodyGoodPad) =
        ([65, 78, 68, 82, 79, 73, 68, 32, 66, 65, 67, 75, 85, 80, 10],
          [49, 10], [48, 10], [65, 69, 83, 45, 50, 53, 54, 10],
          bodyGoodPad) ∧
      _decrypt_backup_data cPrims bodyGoodPad [97] = .ok [] ∧
      extract_backup_to_tar_da cPrims cZlib (hdrAes ++ bodyGoodPad)
        (some [97]) = mkOk true false [] :=
  ⟨by decide, by decide,
    c5_decrypt_success_writes_sink_unconditionally cPrims cZlib
      (hdrAes ++ bodyGoodPad) [97] []
      [65, 78, 68, 82, 79, 73, 68, 32, 66, 65, 67, 75, 85, 80, 10]
      [49, 10] [48, 10] [65, 69, 83, 45, 50, 53, 54, 10] bodyGoodPad
      (by decide) (by decide) (by decide) (by decide) (by decide)
      (by decide) (by decide) (by decide) (by decide)⟩

/-! ## Claim C7 -/

/-- C7: decoding `b"ANDROID BACKUP\n1\n1\nnone\n" + zlib.compress(tar)`
returns exactly `tar` with `was_encrypted = False` and
`was_compressed = True`, in both extractors; and since the conclusion is the
same fixed record for every `password` argument (including `None`), the
password is ignored whenever the header's encryption field is the `none`
sentinel.  The hypothesis is the zlib round-trip contract
`decompress (compress tar) = tar`. -/
theorem c7_unencrypted_compressed_roundtrip
    (P : CryptoPrims) (Z : ZlibPrims) (tar : Bytes) (pw : Option Bytes)
    (hz : Z.decompress (Z.compress tar) = .ok tar) :
    extract_backup_to_tar_da P Z (hdrNone ++ Z.compress tar) pw =
        mkOk false true tar ∧
      extract_backup_to_tar_main P Z (hdrNone ++ Z.compress tar) pw =
        mkOk false true tar := by
  constructor
  · have hda : daLines (hdrNone ++ Z.compress tar) =
        ([65, 78, 68, 82, 79, 73, 68, 32, 66, 65, 67, 75, 85, 80, 10],
          [49, 10], [49, 10], [110, 111, 110, 101, 10], Z.compress tar) := by
      simp [daLines, hdrNone, readLine]
    unfold extract_backup_to_tar_da
    rw [hda]
    have h1 : bytesStartWith magicBytes
        [65, 78, 68, 82, 79, 73, 68, 32, 66, 65, 67, 75, 85, 80, 10] = true := by
      decide
    have h2 : utf8Valid [49, 10] = true := by decide
    have h3 : utf8Valid [110, 111, 110, 101, 10] = true := by decide
    have h4 : stripBytes [110, 111, 110, 101, 10] = noneBytes := by decide
    have h5 : stripBytes [49, 10] = oneBytes := by decide
    simp [h1, h2, h3, h4, h5, daFinish, hz]
  · have ht : (hdrNone ++ Z.compress tar).take 24 = hdrNone :=
      List.take_left' (by decide)
    have hd : (hdrNone ++ Z.compress tar).drop 24 = Z.compress tar :=
      List.drop_left' (by decide)
    have hsplit : (utf8DecodeIgnore hdrNone).splitOn 10 =
        [[65, 78, 68, 82, 79, 73, 68, 32, 66, 65, 67, 75, 85, 80],
          [49], [49], [110, 111, 110, 101], []] := by decide
    have hm : bytesStartWith magicBytes hdrNone = true := by decide
    unfold extract_backup_to_tar_main mainCompressed mainEncryption mainLines
    rw [ht, hd, hsplit]
    simp [mainFinish, hz, hm, noneBytes, oneBytes]

/-- Witness for C7 at `tar = [1, 2, 3]`, the identity-compression zlib
instance and a non-`None` password. -/
theorem c7_witness :
    cZlib.decompress (cZlib.compress [1, 2, 3]) = .ok [1, 2, 3] ∧
      (extract_backup_to_tar_da cPrims cZlib
          (hdrNone ++ cZlib.compress [1, 2, 3]) (some [120]) =
          mkOk false true [1, 2, 3] ∧
        extract_backup_to_tar_main cPrims cZlib
          (hdrNone ++ cZlib.compress [1, 2, 3]) (some [120]) =
          mkOk false true [1, 2, 3]) :=
  ⟨by decide, c7_unencrypted_compressed_roundtrip cPrims cZlib [1, 2, 3]
    (some [120]) (by decide)⟩

/-! ## Claim C8 -/

/-- C8: when a container's header reports encryption (an encryption field
other than `none`) and the password is absent or empty, both extractors
return the dedicated encrypted-but-no-password error before doing anything
else: the result is the same for every crypto and zlib primitive instance
(so no key derivation can have been consulted), and its sink field is
`none` — nothing was written, leaving the caller free to retry. -/
theorem c8_password_required
    (P : CryptoPrims) (Z : ZlibPrims) (data : Bytes) (pw : Option Bytes)
    (hpw : pwEmpty pw = true) :
    (∀ hl vl cl el body : Bytes,
      daLines data = (hl, vl, cl, el, body) →
      bytesStartWith magicBytes hl = true →
      utf8Valid vl = true → utf8Valid cl = true → utf8Valid el = true →
      stripBytes el ≠ noneBytes →
      extract_backup_to_tar_da P Z data pw = mkErr .encryptedNoPassword) ∧
    (bytesStartWith magicBytes (data.take 24) = true →
      mainEncryption data ≠ noneBytes →
      extract_backup_to_tar_main P Z data pw = mkErr .encryptedNoPassword) ∧
    (mkErr .encryptedNoPassword).output = none := by
  refine ⟨?_, ?_, rfl⟩
  · intro hl vl cl el body hlines hmagic hv hc he henc
    unfold extract_backup_to_tar_da
    rw [hlines]
    simp [hmagic, hv, hc, he, henc, hpw]
  · intro hmagic henc
    unfold extract_backup_to_tar_main
    simp [hmagic, henc, hpw]

/-- Witness for C8 at the encrypted header `hdrAes` with `password = None`
(both extractors see a non-`none` encryption field there). -/
theorem c8_witness :
    extract_backup_to_tar_da cPrims cZlib hdrAes none =
        mkErr .encryptedNoPassword ∧
      extract_backup_to_tar_main cPrims cZlib hdrAes none =
        mkErr .encryptedNoPassword :=
  ⟨(c8_password_required cPrims cZlib hdrAes none (by decide)).1
      [65, 78, 68, 82, 79, 73, 68, 32, 66, 65, 67, 75, 85, 80, 10]
      [49, 10] [48, 10] [65, 69, 83, 45, 50, 53, 54, 10] []
      (by decide) (by decide) (by decide) (by decide) (by decide) (by decide),
    (c8_password_required cPrims cZlib hdrAes none (by decide)).2.1
      (by decide) (by decide)⟩

/-! ## Claim C9 -/

set_option maxHeartbeats 1000000 in
/-- Every branch of the data-acquisition extractor either reports success
or leaves the sink untouched. -/
theorem extract_da_success_or_silent (P : CryptoPrims) (Z : ZlibPrims)
    (data : Bytes) (pw : Option Bytes) :
    (extract_backup_to_tar_da P Z data pw).success = true ∨
      (extract_backup_to_tar_da P Z data pw).output = none := by
  rcases hda : daLines data with ⟨hl, vl, cl, el, body⟩
  unfold extract_backup_to_tar_da daFinish
  rw [hda]
  simp only []
  repeat' split
  all_goals first
    | exact Or.inl rfl
    | exact Or.inr rfl

set_option maxHeartbeats 1000000 in
/-- Every branch of the `src/main.py` extractor either reports success or
leaves the sink untouched. -/
theorem extract_main_success_or_silent (P : CryptoPrims) (Z : ZlibPrims)
    (data : Bytes) (pw : Option Bytes) :
    (extract_backup_to_tar_main P Z data pw).success = true ∨
      (extract_backup_to_tar_main P Z data pw).output = none := by
  unfold extract_backup_to_tar_main mainFinish
  simp only []
  repeat' split
  all_goals first
    | exact Or.inl rfl
    | exact Or.inr rfl

/-- C9: whenever either extractor returns `success = False` — bad magic,
missing password, decryption failure or decompression failure — the output
tar sink was never opened or written (`output = none`), so the pre-existing
contents of the output path are unchanged; bytes reach the sink only after
decryption and decompression have fully succeeded. -/
theorem c9_no_write_on_failure (P : CryptoPrims) (Z : ZlibPrims)
    (data : Bytes) (pw : Option Bytes) :
    ((extract_backup_to_tar_da P Z data pw).success = false →
      (extract_backup_to_tar_da P Z data pw).output = none) ∧
    ((extract_backup_to_tar_main P Z data pw).success = false →
      (extract_backup_to_tar_main P Z data pw).output = none) := by
  constructor
  · intro hs
    rcases extract_da_success_or_silent P Z data pw with h | h
    · rw [h] at hs; exact absurd hs (by decide)
    · exact h
  · intro hs
    rcases extract_main_success_or_silent P Z data pw with h | h
    · rw [h] at hs; exact absurd hs (by decide)
    · exact h

/-- Witness for C9 at a bad-magic input (both extractors fail on it). -/
theorem c9_witness :
    (extract_backup_to_tar_da cPrims cZlib [66] none).output = none ∧
      (extract_backup_to_tar_main cPrims cZlib [66] none).output = none :=
  ⟨(c9_no_write_on_failure cPrims cZlib [66] none).1 (by decide),
    (c9_no_write_on_failure cPrims cZlib [66] none).2 (by decide)⟩
